import Mathlib

/-!
Verification of the session-deduplication state machine, stream-status fetcher,
credential manager, poll-interval computation and config persistence of
`new_twitch_watcher.py`, as a shallow embedding.

Conventions of the embedding:
* Python dicts keyed by strings are modelled either as lookup functions
  (`live_sessions`, which the tracker only reads and writes pointwise) or as
  insertion-ordered association lists (the fetcher's `out` dict and the config
  dict, whose iteration order matters for the produced value).
* Unix timestamps are natural numbers for the tracker (only the comparisons
  `now - t > 300` and `now - t <= 300` occur, on which truncated subtraction
  agrees with Python's signed subtraction) and integers for the credential
  manager (where `expires_at - now > 300` must be signed).
* Python truthiness of optional/defaulted values is modelled explicitly
  (`None` and `0` are falsy, the empty string is falsy).
* The HTTP layer is an oracle (`FetchEnv`): a function from headers and batch
  to the parsed response, so a run of the fetcher is a pure fold.  `Response.ok`
  of the `requests` library is `status_code < 400` and is modelled as such.
-/

namespace TW

/-- `str.lower()` of Python, as a character-wise map (kernel-evaluable,
unlike `String.toLower`; identical on the ASCII logins at hand). -/
def pyLower (s : String) : String :=
  ⟨s.data.map Char.toLower⟩

/-- `str.strip()` of Python: drop leading and trailing whitespace. -/
def pyStrip (s : String) : String :=
  ⟨((s.data.dropWhile Char.isWhitespace).reverse.dropWhile Char.isWhitespace).reverse⟩

/-- `self.RECONNECT_GRACE_SEC = 300` (seconds) in `MainWindow.__init__`. -/
def RECONNECT_GRACE_SEC : Nat := 300

/-- `TOKEN_REFRESH_BUFFER_SEC = 300` (seconds), module level constant. -/
def TOKEN_REFRESH_BUFFER_SEC : Int := 300

/-- One channel's entry of the poll-result dict produced by
`TwitchChecker.check_channels`:
`{"live": bool, "title": str, "started_at": str, "id": str}`. -/
structure Info where
  live : Bool
  title : String
  started_at : String
  id : String
deriving DecidableEq

/-- One value of `MainWindow.live_sessions`:
`{"session_id": str, "started_at": str, "last_seen": int, "offline_since": Optional[int]}`. -/
structure Session where
  session_id : String
  started_at : String
  last_seen : Nat
  offline_since : Option Nat
deriving DecidableEq

/-- The `live_sessions` dict, as a lookup function from login to record. -/
abbrev SessMap := String → Option Session

/-- Pointwise update of the session map (`self.live_sessions[login] = ...`,
and the in-place mutations of a stored record). -/
def setS (m : SessMap) (l : String) (s : Session) : SessMap :=
  fun x => if x = l then some s else m x

/-- Python truthiness of the optional `offline_since` timestamp
(`None` and `0` are falsy). -/
def otruthy : Option Nat → Bool
  | none => false
  | some t => t ≠ 0

/-- `session_id = info.get("id") or info.get("started_at") or ""`
(line 861): the stream id, falling back to the start timestamp, falling
back to the empty string, with Python `or` on strings. -/
def sessionKeyOf (info : Info) : String :=
  if info.id ≠ "" then info.id
  else if info.started_at ≠ "" then info.started_at
  else ""

/-- The expiry sweep of `MainWindow._on_result` (lines 849-856): every record
whose `offline_since` is truthy and older than the grace window is removed. -/
def sweepSessions (m : SessMap) (now_epoch : Nat) : SessMap := fun l =>
  match m l with
  | none => none
  | some s =>
    match s.offline_since with
    | none => some s
    | some t =>
      if t ≠ 0 ∧ RECONNECT_GRACE_SEC < now_epoch - t then none else some s

/-- The per-channel body of the `for login, info in result.items()` loop of
`MainWindow._on_result` (lines 859-901).  Returns the updated session map and
whether `_open_stream_once` (the open-session effect) was invoked for this
channel. -/
def stepChannel (m : SessMap) (now_epoch : Nat) (login : String) (info : Info) :
    SessMap × Bool :=
  if info.live then
    let session_id := sessionKeyOf info
    match m login with
    | none =>
      (setS m login ⟨session_id, info.started_at, now_epoch, none⟩, true)
    | some prev =>
      if session_id = prev.session_id then
        (setS m login { prev with last_seen := now_epoch, offline_since := none }, false)
      else
        match prev.offline_since with
        | some t =>
          if t ≠ 0 ∧ now_epoch - t ≤ RECONNECT_GRACE_SEC then
            (setS m login ⟨session_id, info.started_at, now_epoch, none⟩, false)
          else
            (setS m login ⟨session_id, info.started_at, now_epoch, none⟩, true)
        | none =>
          (setS m login ⟨session_id, info.started_at, now_epoch, none⟩, true)
  else
    match m login with
    | none => (m, false)
    | some prev =>
      if otruthy prev.offline_since then (m, false)
      else (setS m login { prev with offline_since := some now_epoch }, false)

/-- Folding `stepChannel` over the (insertion-ordered) poll-result entries,
collecting the logins for which the open-session effect fired, in order. -/
def applyList (m : SessMap) (now_epoch : Nat) :
    List (String × Info) → SessMap × List String
  | [] => (m, [])
  | (l, info) :: rest =>
    let p := stepChannel m now_epoch l info
    let q := applyList p.1 now_epoch rest
    (q.1, (if p.2 then [l] else []) ++ q.2)

/-- The session-tracking part of `MainWindow._on_result` (lines 849-901):
the expiry sweep followed by the per-channel transition rules.  The table
update (lines 830-847) is pure UI and is not modelled. -/
def on_result_sessions (m : SessMap) (now_epoch : Nat)
    (result : List (String × Info)) : SessMap × List String :=
  applyList (sweepSessions m now_epoch) now_epoch result

/-- `MainWindow._start_poll` executes `self.live_sessions.clear()` (line 789)
before triggering the first cycle: the session map right after a (re)start. -/
def start_poll_sessions : SessMap := fun _ => none

/-- The keys of a poll result are pairwise distinct (it is a Python dict). -/
abbrev keysNodup (result : List (String × Info)) : Prop :=
  (result.map Prod.fst).Nodup

/-- What `stepChannel` fires for a channel, as a function of the channel's
own record only (the loop body reads and writes a single key). -/
def localFired (o : Option Session) (now_epoch : Nat) (info : Info) : Bool :=
  if info.live then
    match o with
    | none => true
    | some prev =>
      if sessionKeyOf info = prev.session_id then false
      else
        match prev.offline_since with
        | some t =>
          if t ≠ 0 ∧ now_epoch - t ≤ RECONNECT_GRACE_SEC then false else true
        | none => true
  else false

/-- The channel's record after `stepChannel`, as a function of the channel's
own record only. -/
def localNew (o : Option Session) (now_epoch : Nat) (info : Info) : Option Session :=
  if info.live then
    match o with
    | none => some ⟨sessionKeyOf info, info.started_at, now_epoch, none⟩
    | some prev =>
      if sessionKeyOf info = prev.session_id then
        some { prev with last_seen := now_epoch, offline_since := none }
      else
        some ⟨sessionKeyOf info, info.started_at, now_epoch, none⟩
  else
    match o with
    | none => none
    | some prev =>
      if otruthy prev.offline_since then some prev
      else some { prev with offline_since := some now_epoch }

/-- One element of the `data` array of a Helix streams response. -/
structure Item where
  user_login : String
  title : String
  started_at : String
  id : String
deriving DecidableEq

/-- A status-query HTTP response whose body parsed as JSON: its status code
and the `data` array (`r.json().get("data", [])`). -/
structure HResp where
  status : Nat
  data : List Item
deriving DecidableEq

/-- `requests.Response.ok`: true iff `status_code < 400`. -/
def HResp.ok (r : HResp) : Bool := r.status < 400

/-- The fetcher's collaborators: `get_headers_callable` (indexed by
`force_refresh`; `none` models `ok = False`) and the HTTP GET against the
streams endpoint, as a function of the headers and the batch of logins. -/
structure FetchEnv where
  getHeaders : Bool → Option String
  http : String → List String → HResp

/-- Observable events of one `check_channels` run, in order: header (token)
lookups, HTTP requests, `authErrorSignal`, `errorSignal` and `resultReady`
emissions. -/
inductive Ev where
  | getHdr (force : Bool)
  | httpCall (headers : String) (chunk : List String)
  | authErr
  | errMsg
  | resultReady (out : List (String × Info))
deriving DecidableEq

/-- Dict assignment `out[k] = v`: replace in place if the key is present,
append otherwise. -/
def setk : List (String × Info) → String → Info → List (String × Info)
  | [], k, v => [(k, v)]
  | p :: rest, k, v =>
    if p.1 = k then (k, v) :: rest else p :: setk rest k v

/-- Dict lookup on the fetcher's `out` dict. -/
def lookupk : List (String × Info) → String → Option Info
  | [], _ => none
  | p :: rest, k => if p.1 = k then some p.2 else lookupk rest k

/-- `{"live": False, "title": "", "started_at": "", "id": ""}`. -/
def defaultInfo : Info := ⟨false, "", "", ""⟩

/-- The response-application loop (lines 115-123): for each item of `data`,
`out[item["user_login"].lower()] = {live: True, ...}`. -/
def applyData (out : List (String × Info)) (data : List Item) :
    List (String × Info) :=
  data.foldl
    (fun o it => setk o (pyLower it.user_login) ⟨true, it.title, it.started_at, it.id⟩)
    out

/-- `[l.strip().lower() for l in logins if l and l.strip()]` (line 84). -/
def normalizeLogins (logins : List String) : List String :=
  (logins.filter (fun l => l ≠ "" && pyStrip l ≠ "")).map (fun l => pyLower (pyStrip l))

/-- Structural helper for `chunksOf`: the fuel bounds the number of chunks
(each step strictly shortens the list, so `l.length` fuel is enough). -/
def chunksOfAux : Nat → List String → List (List String)
  | 0, _ => []
  | _, [] => []
  | fuel + 1, x :: xs => ((x :: xs).take 100) :: chunksOfAux fuel ((x :: xs).drop 100)

/-- `[logins[i:i + 100] for i in range(0, len(logins), 100)]` (line 99). -/
def chunksOf (l : List String) : List (List String) :=
  chunksOfAux l.length l

/-- The `for chunk in chunks` loop of `TwitchChecker.check_channels`
(lines 100-123): per batch, one GET; on 401, emit the auth-error signal,
force-refresh the headers and retry the same batch once; a non-ok response
yields an `errorSignal` and `continue`; a failed refresh yields an
`errorSignal` and `break`.  Returns the event trace and the final `out`. -/
def processChunks (env : FetchEnv) (headers : String) :
    List (List String) → List (String × Info) → List Ev × List (String × Info)
  | [], out => ([], out)
  | chunk :: rest, out =>
    let r := env.http headers chunk
    if r.status = 401 then
      match env.getHeaders true with
      | none =>
        ([Ev.httpCall headers chunk, Ev.authErr, Ev.getHdr true, Ev.errMsg], out)
      | some headers2 =>
        let r2 := env.http headers2 chunk
        let step : List Ev × List (String × Info) :=
          if r2.ok then ([], applyData out r2.data) else ([Ev.errMsg], out)
        let tail := processChunks env headers rest step.2
        ([Ev.httpCall headers chunk, Ev.authErr, Ev.getHdr true,
          Ev.httpCall headers2 chunk] ++ step.1 ++ tail.1, tail.2)
    else
      let step : List Ev × List (String × Info) :=
        if r.ok then ([], applyData out r.data) else ([Ev.errMsg], out)
      let tail := processChunks env headers rest step.2
      (Ev.httpCall headers chunk :: step.1 ++ tail.1, tail.2)

/-- `TwitchChecker.check_channels` (lines 83-132): normalize the logins,
pre-fill `out` with offline defaults, short-circuit on empty input, obtain
headers, process the batches, and emit `resultReady` with the final `out`.
Exception paths also end in `resultReady(out)` and are subsumed by the
oracle returning a response for every call. -/
def check_channels (env : FetchEnv) (logins0 : List String) :
    List Ev × List (String × Info) :=
  let logins := normalizeLogins logins0
  let out := logins.foldl (fun o l => setk o l defaultInfo) []
  if logins = [] then ([Ev.resultReady out], out)
  else
    match env.getHeaders false with
    | none => ([Ev.getHdr false, Ev.errMsg, Ev.resultReady out], out)
    | some headers =>
      let run := processChunks env headers (chunksOf logins) out
      (Ev.getHdr false :: run.1 ++ [Ev.resultReady run.2], run.2)

/-- Every `live = True` entry of an `out` dict is backed by an item of some
ok response of the HTTP oracle whose lowercased `user_login` is the entry's
key (so logins unseen upstream, or seen only in errored batches, stay at the
`live = False` default). -/
def liveProvenance (env : FetchEnv) (out : List (String × Info)) : Prop :=
  ∀ x info, lookupk out x = some info → info.live = true →
    ∃ h c it, (env.http h c).ok = true ∧ it ∈ (env.http h c).data ∧
      pyLower it.user_login = x

/-- The token payload of a successful exchange response:
`payload.get("access_token", "")` and `int(payload.get("expires_in", 0))`
(an absent field yields the falsy default). -/
structure TokPayload where
  access_token : String
  expires_in : Int
deriving DecidableEq

/-- A token-exchange HTTP response whose body parsed as JSON. -/
structure TokResp where
  status : Nat
  payload : TokPayload
deriving DecidableEq

/-- `requests.Response.ok`: true iff `status_code < 400`. -/
def TokResp.ok (r : TokResp) : Bool := r.status < 400

/-- The credential fields of `self.cfg` read and written by
`MainWindow._ensure_token`: `access_token` and `token_expires_at`. -/
structure TokSt where
  access_token : String
  token_expires_at : Int
deriving DecidableEq

/-- The distinct outcomes of `MainWindow._ensure_token`, one per return
path of the source (each `False` return is tagged by its log message). -/
inductive TokRes where
  | okCached
  | okNew
  | errMissingId
  | errMissingSecret
  | errExchange (status : Nat)
  | errMalformed
  | errNetwork
deriving DecidableEq

/-- `MainWindow._ensure_token(force, force_refresh)` (lines 532-581).
`client_id`/`client_secret` are the UI field texts; `resp` is the oracle
for the POST to the token endpoint (`none` models a `RequestException`).
Returns the outcome, the new credential state and whether a network
exchange was performed. -/
def ensure_token (st : TokSt) (client_id client_secret : String) (now : Int)
    (force force_refresh : Bool) (resp : Option TokResp) :
    TokRes × TokSt × Bool :=
  let cid := pyStrip client_id
  let csec := pyStrip client_secret
  if ¬force_refresh ∧ st.access_token ≠ "" ∧
      st.token_expires_at - now > TOKEN_REFRESH_BUFFER_SEC ∧ ¬force then
    (TokRes.okCached, st, false)
  else if cid = "" then (TokRes.errMissingId, st, false)
  else if csec = "" then (TokRes.errMissingSecret, st, false)
  else
    match resp with
    | none => (TokRes.errNetwork, st, true)
    | some r =>
      if ¬r.ok then (TokRes.errExchange r.status, st, true)
      else if r.payload.access_token = "" ∨ r.payload.expires_in = 0 then
        (TokRes.errMalformed, st, true)
      else
        (TokRes.okNew, ⟨r.payload.access_token, now + r.payload.expires_in⟩, true)

/-- `_ival(s, lo, hi)` inside `MainWindow._current_interval_sec`
(lines 602-607): the parsed integer of the field text, with `none` standing
for an empty or non-numeric text (both yield the default 0), clamped to
`[lo, hi]` by `max(lo, min(hi, v))`. -/
def ival (s : Option Int) (lo hi : Int) : Int :=
  max lo (min hi (s.getD 0))

/-- `MainWindow._current_interval_sec` (lines 601-611). -/
def current_interval_sec (m s : Option Int) : Int :=
  max 1 (ival m 0 9999 * 60 + ival s 0 59)

/-- The argument of `self.timer.start(...)` in `MainWindow._start_poll`
(line 792): the interval in milliseconds armed for the recurring timer. -/
def start_poll_interval_ms (m s : Option Int) : Int :=
  current_interval_sec m s * 1000

/-- A JSON-serializable config value (the types occurring in the config
dict: strings, booleans, integers, string lists, null). -/
inductive CVal where
  | s (v : String)
  | b (v : Bool)
  | i (v : Int)
  | ls (v : List String)
  | null
deriving DecidableEq

/-- Python truthiness of a config value. -/
def pytruthy : CVal → Bool
  | .s v => v ≠ ""
  | .b v => v
  | .i v => v ≠ 0
  | .ls v => v ≠ []
  | .null => false

/-- The config dict, as an insertion-ordered association list (the order is
what `json.dumps` serializes). -/
abbrev CfgDict := List (String × CVal)

/-- `d.get(k, dflt)`. -/
def dictGet : CfgDict → String → CVal → CVal
  | [], _, dflt => dflt
  | p :: rest, k, dflt => if p.1 = k then p.2 else dictGet rest k dflt

/-- `d[k] = v`: replace in place if the key is present, append otherwise. -/
def dictSet : CfgDict → String → CVal → CfgDict
  | [], k, v => [(k, v)]
  | p :: rest, k, v =>
    if p.1 = k then (k, v) :: rest else p :: dictSet rest k v

/-- `save_config` (lines 62-69): copy the dict (`dict(cfg)`), blank
`client_secret` on the copy unless `save_client_secret` is truthy, and write
the copy.  Returns the written dict (whose `json.dumps` is the file content)
together with the caller's dict after the call — equal to the input because
only the copy is mutated. -/
def save_config (cfg : CfgDict) : CfgDict × CfgDict :=
  let cfg_to_write := cfg
  let cfg_to_write :=
    if pytruthy (dictGet cfg_to_write "save_client_secret" (CVal.b false)) then
      cfg_to_write
    else dictSet cfg_to_write "client_secret" (CVal.s "")
  (cfg_to_write, cfg)

/-! ### Session-tracker lemmas -/

theorem setS_self (m : SessMap) (l : String) (s : Session) : setS m l s l = some s := by
  simp [setS]

theorem setS_other (m : SessMap) (l : String) (s : Session) (x : String) (h : x ≠ l) :
    setS m l s x = m x := by
  simp [setS, h]

theorem stepChannel_fst_self (m : SessMap) (now_epoch : Nat) (l : String) (info : Info) :
    (stepChannel m now_epoch l info).1 l = localNew (m l) now_epoch info := by
  unfold stepChannel localNew
  cases hl : info.live <;> cases hm : m l <;> simp only [hl, hm] <;>
    (try (split <;> try (split <;> try (split <;> try split)))) <;> simp_all [setS]

theorem stepChannel_fst_other (m : SessMap) (now_epoch : Nat) (l : String) (info : Info)
    (x : String) (h : x ≠ l) : (stepChannel m now_epoch l info).1 x = m x := by
  unfold stepChannel
  cases hl : info.live <;> cases hm : m l <;> simp only [hl, hm] <;>
    (try (split <;> try (split <;> try (split <;> try split)))) <;> simp_all [setS]

theorem stepChannel_snd (m : SessMap) (now_epoch : Nat) (l : String) (info : Info) :
    (stepChannel m now_epoch l info).2 = localFired (m l) now_epoch info := by
  unfold stepChannel localFired
  cases hl : info.live <;> cases hm : m l <;> simp only [hl, hm] <;>
    (try (split <;> try (split <;> try (split <;> try split)))) <;> simp_all [setS]

theorem applyList_cons (m : SessMap) (now_epoch : Nat) (p : String × Info)
    (rest : List (String × Info)) :
    applyList m now_epoch (p :: rest) =
      ((applyList (stepChannel m now_epoch p.1 p.2).1 now_epoch rest).1,
        (if (stepChannel m now_epoch p.1 p.2).2 then [p.1] else []) ++
          (applyList (stepChannel m now_epoch p.1 p.2).1 now_epoch rest).2) := rfl

theorem applyList_fst_not_mem (now_epoch : Nat) (rest : List (String × Info)) :
    ∀ (m : SessMap) (l : String), l ∉ rest.map Prod.fst →
      (applyList m now_epoch rest).1 l = m l := by
  induction rest with
  | nil => intro m l _; rfl
  | cons p rest ih =>
    intro m l h
    simp only [List.map_cons, List.mem_cons] at h
    push_neg at h
    rw [applyList_cons]
    exact (ih _ l h.2).trans (stepChannel_fst_other m now_epoch p.1 p.2 l h.1)

theorem applyList_snd_sub (now_epoch : Nat) (rest : List (String × Info)) :
    ∀ (m : SessMap) (x : String), x ∈ (applyList m now_epoch rest).2 →
      x ∈ rest.map Prod.fst := by
  induction rest with
  | nil => intro m x h; simp [applyList] at h
  | cons p rest ih =>
    intro m x h
    rw [applyList_cons] at h
    simp only [List.map_cons, List.mem_cons]
    rcases List.mem_append.1 h with h1 | h2
    · left
      rcases Bool.eq_false_or_eq_true (stepChannel m now_epoch p.1 p.2).2 with hb | hb <;>
        simp [hb] at h1
      exact h1
    · exact Or.inr (ih _ x h2)

theorem applyList_main (now_epoch : Nat) (result : List (String × Info)) :
    ∀ (m : SessMap) (l : String) (info : Info), keysNodup result → (l, info) ∈ result →
      (applyList m now_epoch result).1 l = localNew (m l) now_epoch info ∧
      (applyList m now_epoch result).2.count l =
        (if localFired (m l) now_epoch info then 1 else 0) := by
  induction result with
  | nil => intro m l info _ h; simp at h
  | cons p rest ih =>
    intro m l info hnd hmem
    have hnd0 : p.1 ∉ rest.map Prod.fst ∧ (rest.map Prod.fst).Nodup := by
      simpa [keysNodup] using hnd
    rcases List.mem_cons.1 hmem with heq | hmem2
    · have hp1 : p.1 = l := by rw [← heq]
      have hp2 : p.2 = info := by rw [← heq]
      have hlrest : l ∉ rest.map Prod.fst := hp1 ▸ hnd0.1
      constructor
      · rw [applyList_cons,
          applyList_fst_not_mem now_epoch rest _ l hlrest, hp1, hp2,
          stepChannel_fst_self]
      · have hz : ((applyList (stepChannel m now_epoch p.1 p.2).1 now_epoch rest).2).count l = 0 :=
          List.count_eq_zero.2 (fun hx => hlrest (applyList_snd_sub now_epoch rest _ l hx))
        rw [applyList_cons, List.count_append, hz, hp1, hp2, stepChannel_snd]
        rcases Bool.eq_false_or_eq_true (localFired (m l) now_epoch info) with hb | hb <;>
          simp [hb]
    · have hl : l ≠ p.1 := by
        intro h
        exact hnd0.1 (h ▸ (List.mem_map.2 ⟨(l, info), hmem2, rfl⟩))
      have step := ih (stepChannel m now_epoch p.1 p.2).1 l info hnd0.2 hmem2
      rw [stepChannel_fst_other m now_epoch p.1 p.2 l hl] at step
      constructor
      · rw [applyList_cons]; exact step.1
      · rw [applyList_cons, List.count_append, step.2]
        rcases Bool.eq_false_or_eq_true (stepChannel m now_epoch p.1 p.2).2 with hb | hb <;>
          simp [hb, hl]

theorem sweepSessions_none (m : SessMap) (now_epoch : Nat) (l : String)
    (h : m l = none) : sweepSessions m now_epoch l = none := by
  simp [sweepSessions, h]

theorem sweepSessions_keep (m : SessMap) (now_epoch : Nat) (l : String) (s : Session)
    (h : m l = some s)
    (hs : s.offline_since = none ∨
      ∃ t, s.offline_since = some t ∧ now_epoch - t ≤ RECONNECT_GRACE_SEC) :
    sweepSessions m now_epoch l = some s := by
  rcases hs with hs | ⟨t, ht, hle⟩
  · simp [sweepSessions, h, hs]
  · simp [sweepSessions, h, ht, RECONNECT_GRACE_SEC] at *
    omega

theorem sweepSessions_delete (m : SessMap) (now_epoch : Nat) (l : String) (s : Session)
    (t : Nat) (h : m l = some s) (ht : s.offline_since = some t) (ht0 : t ≠ 0)
    (hgt : RECONNECT_GRACE_SEC < now_epoch - t) :
    sweepSessions m now_epoch l = none := by
  simp [sweepSessions, h, ht, ht0, hgt]

/-! ### Claims about the Session Tracker -/

/-- Claim C1: for every channel with no existing session record, a poll result
reporting it live fires the open-session effect exactly once and creates a
record whose session key is the stream id if that is non-empty and otherwise
the started-at timestamp. -/
theorem claim_C1 (m : SessMap) (now_epoch : Nat) (result : List (String × Info))
    (l : String) (info : Info) (hnd : keysNodup result) (hmem : (l, info) ∈ result)
    (hlive : info.live = true) (hnone : m l = none) :
    (on_result_sessions m now_epoch result).2.count l = 1 ∧
    (on_result_sessions m now_epoch result).1 l =
      some ⟨sessionKeyOf info, info.started_at, now_epoch, none⟩ ∧
    sessionKeyOf info = (if info.id ≠ "" then info.id else info.started_at) := by
  have hsw : sweepSessions m now_epoch l = none := sweepSessions_none m now_epoch l hnone
  have h := applyList_main now_epoch result (sweepSessions m now_epoch) l info hnd hmem
  rw [hsw] at h
  refine ⟨?_, ?_, ?_⟩
  · simp only [on_result_sessions]
    rw [h.2]
    simp [localFired, hlive]
  · simp only [on_result_sessions]
    rw [h.1]
    simp [localNew, hlive]
  · unfold sessionKeyOf
    by_cases hid : info.id = ""
    · by_cases hst : info.started_at = "" <;> simp [hid, hst]
    · simp [hid]

/-- Witness for C1: a first live observation of `alice` with stream id 99. -/
theorem claim_C1_witness :
    (on_result_sessions (fun _ => none) 100
        [("alice", ⟨true, "t", "2020", "99"⟩)]).2.count "alice" = 1 ∧
    (on_result_sessions (fun _ => none) 100
        [("alice", ⟨true, "t", "2020", "99"⟩)]).1 "alice" =
      some ⟨sessionKeyOf ⟨true, "t", "2020", "99"⟩, "2020", 100, none⟩ ∧
    sessionKeyOf ⟨true, "t", "2020", "99"⟩ =
      (if ("99" : String) ≠ "" then "99" else "2020") :=
  claim_C1 (fun _ => none) 100 [("alice", ⟨true, "t", "2020", "99"⟩)] "alice"
    ⟨true, "t", "2020", "99"⟩ (by decide) (by decide) rfl rfl

/-- Counterexample to C2 as stated: with an existing record whose key equals
the observed session key but whose `offline_since` lies beyond the grace
window, the expiry sweep removes the record first and the live observation
does fire the open-session effect (claim C2 asserts no effect whenever the
observed key equals the record's key). -/
theorem claim_C2_counterexample :
    (fun x => if x = "alice" then some (⟨"100", "2020", 50, some 10⟩ : Session) else none)
        "alice" = some ⟨"100", "2020", 50, some 10⟩ ∧
    sessionKeyOf ⟨true, "t", "2020", "100"⟩ = "100" ∧
    (on_result_sessions
        (fun x => if x = "alice" then some (⟨"100", "2020", 50, some 10⟩ : Session) else none)
        400 [("alice", ⟨true, "t", "2020", "100"⟩)]).2 = ["alice"] :=
  ⟨rfl, rfl, by decide⟩

/-- Claim C2 (amended): for a channel whose existing record survives the
expiry sweep, a live observation fires no open-session effect when the
observed key equals the record's key (and the record keeps its key, refreshes
`last_seen` and clears `offline_since`), and likewise fires no effect when the
key differs but `offline_since` is set and at most the grace window old (the
record then adopts the new key and started-at).  The amendment restricts the
equal-key case to records not already past the grace window, which the sweep
deletes before the transition rules run (see the counterexample and C3). -/
theorem claim_C2 (m : SessMap) (now_epoch : Nat) (result : List (String × Info))
    (l : String) (info : Info) (s : Session)
    (hm : m l = some s) (hnd : keysNodup result) (hmem : (l, info) ∈ result)
    (hlive : info.live = true) :
    (sessionKeyOf info = s.session_id →
      (s.offline_since = none ∨
        ∃ t, s.offline_since = some t ∧ 0 < t ∧ now_epoch - t ≤ RECONNECT_GRACE_SEC) →
      (on_result_sessions m now_epoch result).2.count l = 0 ∧
      (on_result_sessions m now_epoch result).1 l =
        some ⟨s.session_id, s.started_at, now_epoch, none⟩) ∧
    (∀ t, sessionKeyOf info ≠ s.session_id → s.offline_since = some t → 0 < t →
      now_epoch - t ≤ RECONNECT_GRACE_SEC →
      (on_result_sessions m now_epoch result).2.count l = 0 ∧
      (on_result_sessions m now_epoch result).1 l =
        some ⟨sessionKeyOf info, info.started_at, now_epoch, none⟩) := by
  constructor
  · intro hkey hsurv
    have hsw : sweepSessions m now_epoch l = some s := by
      refine sweepSessions_keep m now_epoch l s hm ?_
      rcases hsurv with h0 | ⟨t, ht, _, hle⟩
      · exact Or.inl h0
      · exact Or.inr ⟨t, ht, hle⟩
    have h := applyList_main now_epoch result (sweepSessions m now_epoch) l info hnd hmem
    rw [hsw] at h
    constructor
    · simp only [on_result_sessions]
      rw [h.2]
      simp [localFired, hlive, hkey]
    · simp only [on_result_sessions]
      rw [h.1]
      simp [localNew, hlive, hkey]
  · intro t hkey ht ht0 hle
    have hsw : sweepSessions m now_epoch l = some s :=
      sweepSessions_keep m now_epoch l s hm (Or.inr ⟨t, ht, hle⟩)
    have h := applyList_main now_epoch result (sweepSessions m now_epoch) l info hnd hmem
    rw [hsw] at h
    constructor
    · simp only [on_result_sessions]
      rw [h.2]
      simp [localFired, hlive, hkey, ht, ht0.ne', hle]
    · simp only [on_result_sessions]
      rw [h.1]
      simp [localNew, hlive, hkey]

/-- Witness for the amended C2: a reconnect with a changed stream id 190
seconds into the grace window is suppressed and adopts the new key. -/
theorem claim_C2_witness :
    (on_result_sessions
        (fun x => if x = "alice" then some (⟨"100", "2020", 50, some 10⟩ : Session) else none)
        200 [("alice", ⟨true, "t", "2021", "101"⟩)]).2.count "alice" = 0 ∧
    (on_result_sessions
        (fun x => if x = "alice" then some (⟨"100", "2020", 50, some 10⟩ : Session) else none)
        200 [("alice", ⟨true, "t", "2021", "101"⟩)]).1 "alice" =
      some ⟨sessionKeyOf ⟨true, "t", "2021", "101"⟩, "2021", 200, none⟩ :=
  (claim_C2
      (fun x => if x = "alice" then some (⟨"100", "2020", 50, some 10⟩ : Session) else none)
      200 [("alice", ⟨true, "t", "2021", "101"⟩)] "alice" ⟨true, "t", "2021", "101"⟩
      ⟨"100", "2020", 50, some 10⟩ rfl (by decide) (by decide) rfl).2
    10 (by decide) rfl (by decide) (by decide)

/-- Claim C3: the expiry sweep deletes every record whose `offline_since` is
set and older than the grace window before the per-channel rules run, and a
channel observed live after the grace window has elapsed fires a new
open-session effect regardless of whether its key matches the deleted
record's key. -/
theorem claim_C3 (m : SessMap) (now_epoch : Nat) (result : List (String × Info))
    (l : String) (info : Info) (s : Session) (t : Nat)
    (hm : m l = some s) (ht : s.offline_since = some t) (ht0 : 0 < t)
    (hgt : RECONNECT_GRACE_SEC < now_epoch - t)
    (hnd : keysNodup result) (hmem : (l, info) ∈ result) (hlive : info.live = true) :
    sweepSessions m now_epoch l = none ∧
    (on_result_sessions m now_epoch result).2.count l = 1 ∧
    (on_result_sessions m now_epoch result).1 l =
      some ⟨sessionKeyOf info, info.started_at, now_epoch, none⟩ := by
  have hsw := sweepSessions_delete m now_epoch l s t hm ht ht0.ne' hgt
  have h := applyList_main now_epoch result (sweepSessions m now_epoch) l info hnd hmem
  rw [hsw] at h
  refine ⟨hsw, ?_, ?_⟩
  · simp only [on_result_sessions]
    rw [h.2]
    simp [localFired, hlive]
  · simp only [on_result_sessions]
    rw [h.1]
    simp [localNew, hlive]

/-- Witness for C3: `alice` offline since 10, observed live at 400 with the
same stream id as the deleted record; the effect fires anyway. -/
theorem claim_C3_witness :
    sweepSessions
        (fun x => if x = "alice" then some (⟨"100", "2020", 50, some 10⟩ : Session) else none)
        400 "alice" = none ∧
    (on_result_sessions
        (fun x => if x = "alice" then some (⟨"100", "2020", 50, some 10⟩ : Session) else none)
        400 [("alice", ⟨true, "t", "2020", "100"⟩)]).2.count "alice" = 1 ∧
    (on_result_sessions
        (fun x => if x = "alice" then some (⟨"100", "2020", 50, some 10⟩ : Session) else none)
        400 [("alice", ⟨true, "t", "2020", "100"⟩)]).1 "alice" =
      some ⟨sessionKeyOf ⟨true, "t", "2020", "100"⟩, "2020", 400, none⟩ :=
  claim_C3
    (fun x => if x = "alice" then some (⟨"100", "2020", 50, some 10⟩ : Session) else none)
    400 [("alice", ⟨true, "t", "2020", "100"⟩)] "alice" ⟨true, "t", "2020", "100"⟩
    ⟨"100", "2020", 50, some 10⟩ 10 rfl rfl (by decide) (by decide) (by decide) (by decide)
    rfl

/-- Claim C9 (implicit): `_start_poll` unconditionally clears all session
records, so on the first poll after a (re)start every live channel fires the
open-session effect again. -/
theorem claim_C9 (now_epoch : Nat) (result : List (String × Info)) (l : String)
    (info : Info) (hnd : keysNodup result) (hmem : (l, info) ∈ result)
    (hlive : info.live = true) :
    start_poll_sessions l = none ∧
    (on_result_sessions start_poll_sessions now_epoch result).2.count l = 1 := by
  have hsw : sweepSessions start_poll_sessions now_epoch l = none := rfl
  have h := applyList_main now_epoch result (sweepSessions start_poll_sessions now_epoch)
    l info hnd hmem
  rw [hsw] at h
  refine ⟨rfl, ?_⟩
  simp only [on_result_sessions]
  rw [h.2]
  simp [localFired, hlive]

/-- Witness for C9: `bob` live on the first poll after a restart. -/
theorem claim_C9_witness :
    start_poll_sessions "bob" = none ∧
    (on_result_sessions start_poll_sessions 5
        [("bob", ⟨true, "x", "2020", "7"⟩)]).2.count "bob" = 1 :=
  claim_C9 5 [("bob", ⟨true, "x", "2020", "7"⟩)] "bob" ⟨true, "x", "2020", "7"⟩
    (by decide) (by decide) rfl

/-! ### Fetcher lemmas -/

theorem lookupk_setk (m : List (String × Info)) (k : String) (v : Info) (x : String) :
    lookupk (setk m k v) x = if x = k then some v else lookupk m x := by
  induction m with
  | nil =>
    by_cases h : x = k <;> simp [setk, lookupk, h, Ne.symm]
  | cons p rest ih =>
    by_cases hpk : p.1 = k
    · by_cases hx : x = k <;>
        simp [setk, lookupk, hpk, hx, Ne.symm]
    · by_cases hpx : p.1 = x
      · have hx : ¬x = k := fun h => hpk (hpx.trans h)
        simp [setk, lookupk, hpk, hpx, hx]
      · simp [setk, lookupk, hpk, hpx, ih]

theorem lookupk_isSome_setk (m : List (String × Info)) (k : String) (v : Info)
    (x : String) (h : (lookupk m x).isSome = true) :
    (lookupk (setk m k v) x).isSome = true := by
  rw [lookupk_setk]
  split
  · rfl
  · exact h

theorem lookupk_isSome_foldl_default (logins : List String) :
    ∀ (out : List (String × Info)) (x : String), (lookupk out x).isSome = true →
      (lookupk (logins.foldl (fun o l => setk o l defaultInfo) out) x).isSome = true := by
  induction logins with
  | nil => intro out x h; exact h
  | cons l rest ih =>
    intro out x h
    exact ih _ x (lookupk_isSome_setk out l defaultInfo x h)

theorem lookupk_isSome_foldl_mem (logins : List String) :
    ∀ (out : List (String × Info)) (x : String), x ∈ logins →
      (lookupk (logins.foldl (fun o l => setk o l defaultInfo) out) x).isSome = true := by
  induction logins with
  | nil => intro out x h; simp at h
  | cons l rest ih =>
    intro out x h
    rcases List.mem_cons.1 h with rfl | h2
    · refine lookupk_isSome_foldl_default rest _ x ?_
      rw [lookupk_setk]
      simp
    · exact ih _ x h2

theorem lookupk_isSome_applyData (data : List Item) :
    ∀ (out : List (String × Info)) (x : String), (lookupk out x).isSome = true →
      (lookupk (applyData out data) x).isSome = true := by
  induction data with
  | nil => intro out x h; exact h
  | cons it rest ih =>
    intro out x h
    exact ih _ x (lookupk_isSome_setk out (pyLower it.user_login) _ x h)

theorem processChunks_cons_401_fail (env : FetchEnv) (headers : String)
    (chunk : List String) (rest : List (List String)) (out : List (String × Info))
    (h401 : (env.http headers chunk).status = 401) (hh : env.getHeaders true = none) :
    processChunks env headers (chunk :: rest) out =
      ([Ev.httpCall headers chunk, Ev.authErr, Ev.getHdr true, Ev.errMsg], out) := by
  simp [processChunks, h401, hh]

theorem processChunks_cons_401_retry (env : FetchEnv) (headers h2 : String)
    (chunk : List String) (rest : List (List String)) (out : List (String × Info))
    (h401 : (env.http headers chunk).status = 401) (hh : env.getHeaders true = some h2) :
    processChunks env headers (chunk :: rest) out =
      ([Ev.httpCall headers chunk, Ev.authErr, Ev.getHdr true, Ev.httpCall h2 chunk] ++
          (if (env.http h2 chunk).ok then [] else [Ev.errMsg]) ++
          (processChunks env headers rest
            (if (env.http h2 chunk).ok then applyData out (env.http h2 chunk).data
             else out)).1,
        (processChunks env headers rest
          (if (env.http h2 chunk).ok then applyData out (env.http h2 chunk).data
           else out)).2) := by
  by_cases hok : (env.http h2 chunk).ok = true <;>
    simp [processChunks, h401, hh, hok]

theorem processChunks_cons_not401 (env : FetchEnv) (headers : String)
    (chunk : List String) (rest : List (List String)) (out : List (String × Info))
    (h401 : (env.http headers chunk).status ≠ 401) :
    processChunks env headers (chunk :: rest) out =
      (Ev.httpCall headers chunk ::
          ((if (env.http headers chunk).ok then [] else [Ev.errMsg]) ++
            (processChunks env headers rest
              (if (env.http headers chunk).ok
               then applyData out (env.http headers chunk).data else out)).1),
        (processChunks env headers rest
          (if (env.http headers chunk).ok
           then applyData out (env.http headers chunk).data else out)).2) := by
  by_cases hok : (env.http headers chunk).ok = true <;>
    simp [processChunks, h401, hok]

theorem lookupk_isSome_processChunks (env : FetchEnv) (headers : String)
    (chunks : List (List String)) :
    ∀ (out : List (String × Info)) (x : String), (lookupk out x).isSome = true →
      (lookupk (processChunks env headers chunks out).2 x).isSome = true := by
  induction chunks with
  | nil => intro out x h; exact h
  | cons c rest ih =>
    intro out x h
    by_cases h401 : (env.http headers c).status = 401
    · cases hh : env.getHeaders true with
      | none =>
        rw [processChunks_cons_401_fail env headers c rest out h401 hh]
        exact h
      | some h2 =>
        rw [processChunks_cons_401_retry env headers h2 c rest out h401 hh]
        refine ih _ x ?_
        split
        · exact lookupk_isSome_applyData _ out x h
        · exact h
    · rw [processChunks_cons_not401 env headers c rest out h401]
      refine ih _ x ?_
      split
      · exact lookupk_isSome_applyData _ out x h
      · exact h

theorem liveProvenance_nil (env : FetchEnv) : liveProvenance env [] := by
  intro x info hx _
  simp [lookupk] at hx

theorem liveProvenance_setk_default (env : FetchEnv) (out : List (String × Info))
    (k : String) (h : liveProvenance env out) :
    liveProvenance env (setk out k defaultInfo) := by
  intro x info hx hlive
  rw [lookupk_setk] at hx
  by_cases hxk : x = k
  · rw [if_pos hxk] at hx
    cases hx
    cases hlive
  · rw [if_neg hxk] at hx
    exact h x info hx hlive

theorem liveProvenance_foldl_default (env : FetchEnv) (logins : List String) :
    ∀ (out : List (String × Info)), liveProvenance env out →
      liveProvenance env (logins.foldl (fun o l => setk o l defaultInfo) out) := by
  induction logins with
  | nil => intro out h; exact h
  | cons l rest ih =>
    intro out h
    exact ih _ (liveProvenance_setk_default env out l h)

theorem liveProvenance_foldl_items (env : FetchEnv) (hh : String) (cc : List String)
    (hok : (env.http hh cc).ok = true) :
    ∀ (d : List Item), (∀ it ∈ d, it ∈ (env.http hh cc).data) →
      ∀ (out : List (String × Info)), liveProvenance env out →
        liveProvenance env
          (d.foldl
            (fun o it => setk o (pyLower it.user_login) ⟨true, it.title, it.started_at, it.id⟩)
            out) := by
  intro d
  induction d with
  | nil => intro _ out h; exact h
  | cons it rest ih =>
    intro hsub out h
    refine ih (fun j hj => hsub j (List.mem_cons_of_mem it hj)) _ ?_
    intro x info hx hlive
    rw [lookupk_setk] at hx
    by_cases hxk : x = pyLower it.user_login
    · exact ⟨hh, cc, it, hok, hsub it (List.mem_cons_self it rest), hxk.symm⟩
    · rw [if_neg hxk] at hx
      exact h x info hx hlive

theorem liveProvenance_applyData (env : FetchEnv) (hh : String) (cc : List String)
    (hok : (env.http hh cc).ok = true) (out : List (String × Info))
    (h : liveProvenance env out) :
    liveProvenance env (applyData out (env.http hh cc).data) :=
  liveProvenance_foldl_items env hh cc hok (env.http hh cc).data (fun _ hj => hj) out h

theorem liveProvenance_processChunks (env : FetchEnv) (headers : String)
    (chunks : List (List String)) :
    ∀ (out : List (String × Info)), liveProvenance env out →
      liveProvenance env (processChunks env headers chunks out).2 := by
  induction chunks with
  | nil => intro out h; exact h
  | cons c rest ih =>
    intro out h
    by_cases h401 : (env.http headers c).status = 401
    · cases hh : env.getHeaders true with
      | none =>
        rw [processChunks_cons_401_fail env headers c rest out h401 hh]
        exact h
      | some h2 =>
        rw [processChunks_cons_401_retry env headers h2 c rest out h401 hh]
        refine ih _ ?_
        by_cases hok : (env.http h2 c).ok = true
        · rw [if_pos hok]
          exact liveProvenance_applyData env h2 c hok out h
        · rw [if_neg hok]
          exact h
    · rw [processChunks_cons_not401 env headers c rest out h401]
      refine ih _ ?_
      by_cases hok : (env.http headers c).ok = true
      · rw [if_pos hok]
        exact liveProvenance_applyData env headers c hok out h
      · rw [if_neg hok]
        exact h

/-! ### Claims about the Fetcher -/

/-- Claim C4 (amended): a batch whose response is HTTP 401 makes the fetcher
emit the auth-error signal, force-refresh the headers and retry that same
batch exactly once with the new headers (the trace shows exactly the two
requests for that batch before the remaining batches are processed); a batch
response that is not ok in the sense of `requests` (status >= 400) — other
than the initial 401 which triggers the single retry — is reported as a
per-batch error and processing continues with the remaining batches.  The
amendment replaces the claim's "any non-2xx response" by "status >= 400":
the code tests `r.ok`, which is true for 3xx (see the counterexample). -/
theorem claim_C4 (env : FetchEnv) (headers h2 : String) (chunk : List String)
    (rest : List (List String)) (out : List (String × Info))
    (h401 : (env.http headers chunk).status = 401)
    (hh : env.getHeaders true = some h2) :
    (processChunks env headers (chunk :: rest) out).1 =
      [Ev.httpCall headers chunk, Ev.authErr, Ev.getHdr true, Ev.httpCall h2 chunk] ++
        (if (env.http h2 chunk).ok then [] else [Ev.errMsg]) ++
        (processChunks env headers rest
          (if (env.http h2 chunk).ok then applyData out (env.http h2 chunk).data
           else out)).1 ∧
    (∀ (chunk2 : List String) (rest2 : List (List String))
        (out2 : List (String × Info)),
      (env.http headers chunk2).status ≠ 401 → (env.http headers chunk2).ok = false →
      processChunks env headers (chunk2 :: rest2) out2 =
        (Ev.httpCall headers chunk2 :: Ev.errMsg ::
            (processChunks env headers rest2 out2).1,
          (processChunks env headers rest2 out2).2)) := by
  constructor
  · rw [processChunks_cons_401_retry env headers h2 chunk rest out h401 hh]
  · intro chunk2 rest2 out2 h401b hok
    rw [processChunks_cons_not401 env headers chunk2 rest2 out2 h401b]
    simp [hok]

/-- Witness for the amended C4: a concrete oracle that 401s on the stale
headers and succeeds on the refreshed ones; the trace shows the retry. -/
theorem claim_C4_witness :
    (processChunks
        (⟨fun b => if b then some "h2" else some "h1",
          fun h _ => if h = "h1" then ⟨401, []⟩
            else ⟨200, [⟨"alice", "t", "s", "9"⟩]⟩⟩ : FetchEnv)
        "h1" [["alice"]] []).1 =
      [Ev.httpCall "h1" ["alice"], Ev.authErr, Ev.getHdr true,
        Ev.httpCall "h2" ["alice"]] := by
  have h :=
    (claim_C4
      (⟨fun b => if b then some "h2" else some "h1",
        fun h _ => if h = "h1" then ⟨401, []⟩
          else ⟨200, [⟨"alice", "t", "s", "9"⟩]⟩⟩ : FetchEnv)
      "h1" "h2" ["alice"] [] [] (by decide) (by decide)).1
  simpa using h

/-- Counterexample to C4 as stated: a 302 batch response is not 2xx, yet the
fetcher reports no per-batch error for it (`requests`' `ok` is
`status < 400`). -/
theorem claim_C4_counterexample :
    ((⟨fun _ => some "h", fun _ _ => ⟨302, []⟩⟩ : FetchEnv).http "h" ["a"]).status = 302 ∧
    (processChunks (⟨fun _ => some "h", fun _ _ => ⟨302, []⟩⟩ : FetchEnv)
        "h" [["a"]] []).1.count Ev.errMsg = 0 :=
  ⟨rfl, by decide⟩

/-- Claim C7: the fetch normalizes its input logins (strip, lowercase, drop
empties) and always returns a mapping with an entry for every normalized
login; an entry can be live only if a successful upstream response listed
that login (so unseen and errored logins keep the live-false default); and an
empty normalized input yields an immediate empty result whose trace contains
no credential lookup and no HTTP request. -/
theorem claim_C7 (env : FetchEnv) (logins0 : List String) :
    (∀ x ∈ normalizeLogins logins0,
      (lookupk (check_channels env logins0).2 x).isSome = true) ∧
    (∀ x info, lookupk (check_channels env logins0).2 x = some info →
      info.live = true →
      ∃ h c it, (env.http h c).ok = true ∧ it ∈ (env.http h c).data ∧
        pyLower it.user_login = x) ∧
    (normalizeLogins logins0 = [] →
      check_channels env logins0 = ([Ev.resultReady []], [])) := by
  refine ⟨?_, ?_, ?_⟩
  · intro x hx
    have hne : normalizeLogins logins0 ≠ [] := by
      intro h0
      rw [h0] at hx
      simp at hx
    have hbase := lookupk_isSome_foldl_mem (normalizeLogins logins0) [] x hx
    cases hh : env.getHeaders false with
    | none => simpa [check_channels, hne, hh] using hbase
    | some headers =>
      have := lookupk_isSome_processChunks env headers
        (chunksOf (normalizeLogins logins0))
        ((normalizeLogins logins0).foldl (fun o l => setk o l defaultInfo) []) x hbase
      simpa [check_channels, hne, hh] using this
  · intro x info hx hlive
    have hbase : liveProvenance env
        ((normalizeLogins logins0).foldl (fun o l => setk o l defaultInfo) []) :=
      liveProvenance_foldl_default env (normalizeLogins logins0) [] (liveProvenance_nil env)
    by_cases hne : normalizeLogins logins0 = []
    · rw [show (check_channels env logins0).2 =
          ((normalizeLogins logins0).foldl (fun o l => setk o l defaultInfo) []) by
        simp [check_channels, hne]] at hx
      exact hbase x info hx hlive
    · cases hh : env.getHeaders false with
      | none =>
        rw [show (check_channels env logins0).2 =
            ((normalizeLogins logins0).foldl (fun o l => setk o l defaultInfo) []) by
          simp [check_channels, hne, hh]] at hx
        exact hbase x info hx hlive
      | some headers =>
        have hprov := liveProvenance_processChunks env headers
          (chunksOf (normalizeLogins logins0))
          ((normalizeLogins logins0).foldl (fun o l => setk o l defaultInfo) []) hbase
        rw [show (check_channels env logins0).2 =
            (processChunks env headers (chunksOf (normalizeLogins logins0))
              ((normalizeLogins logins0).foldl (fun o l => setk o l defaultInfo) [])).2 by
          simp [check_channels, hne, hh]] at hx
        exact hprov x info hx hlive
  · intro hl
    simp [check_channels, hl]

/-- Witness for C7: an input needing normalization gets an entry under its
normalized login. -/
theorem claim_C7_witness :
    (lookupk
        (check_channels (⟨fun _ => some "h", fun _ _ => ⟨200, []⟩⟩ : FetchEnv)
          ["Alice "]).2 "alice").isSome = true :=
  (claim_C7 (⟨fun _ => some "h", fun _ _ => ⟨200, []⟩⟩ : FetchEnv) ["Alice "]).1
    "alice" (by decide)

/-! ### Claims about the Credential Manager -/

/-- Claim C5: with no forced refresh, a non-empty cached token and more than
the 300-second buffer remaining before its stored expiry, the token-ensuring
operation succeeds without performing any network exchange and leaves the
cached token and its expiry unchanged. -/
theorem claim_C5 (st : TokSt) (client_id client_secret : String) (now : Int)
    (resp : Option TokResp) (htok : st.access_token ≠ "")
    (hexp : st.token_expires_at - now > TOKEN_REFRESH_BUFFER_SEC) :
    ensure_token st client_id client_secret now false false resp =
      (TokRes.okCached, st, false) := by
  simp [ensure_token, htok, hexp]

/-- Witness for C5: a cached token with 900 seconds of validity left. -/
theorem claim_C5_witness :
    ensure_token ⟨"tok", 1000⟩ "id" "sec" 100 false false none =
      (TokRes.okCached, ⟨"tok", 1000⟩, false) :=
  claim_C5 ⟨"tok", 1000⟩ "id" "sec" 100 none (by decide) (by decide)

/-- Counterexample to C6 as stated: an ok (HTTP 200) exchange response whose
`access_token` is present but whose `expires_in` is absent (defaulted to 0)
is reported as malformed, although the claim says the malformed failure
occurs only when both fields are missing. -/
theorem claim_C6_counterexample :
    ("tok" : String) ≠ "" ∧
    ensure_token ⟨"", 0⟩ "id" "sec" 1000 false true (some ⟨200, ⟨"tok", 0⟩⟩) =
      (TokRes.errMalformed, ⟨"", 0⟩, true) :=
  ⟨by decide, by decide⟩

/-- Claim C6 (amended): for an exchange response with an ok HTTP status,
reached past the cached-token guard with non-blank credentials, the
operation reports the malformed-response failure exactly when the response's
`access_token` is empty/absent or its `expires_in` is zero/absent (the code
requires both fields, not at least one); when both are present it succeeds
and stores the token with absolute expiry `now + expires_in`. -/
theorem claim_C6 (st : TokSt) (client_id client_secret : String) (now : Int)
    (force force_refresh : Bool) (r : TokResp)
    (hguard : ¬(¬force_refresh ∧ st.access_token ≠ "" ∧
      st.token_expires_at - now > TOKEN_REFRESH_BUFFER_SEC ∧ ¬force))
    (hcid : ¬pyStrip client_id = "") (hcsec : ¬pyStrip client_secret = "")
    (hok : r.ok = true) :
    ((ensure_token st client_id client_secret now force force_refresh (some r)).1 =
        TokRes.errMalformed ↔
      (r.payload.access_token = "" ∨ r.payload.expires_in = 0)) ∧
    (r.payload.access_token ≠ "" → r.payload.expires_in ≠ 0 →
      ensure_token st client_id client_secret now force force_refresh (some r) =
        (TokRes.okNew, ⟨r.payload.access_token, now + r.payload.expires_in⟩, true)) := by
  have hnok : ¬(¬r.ok = true) := fun hc => hc hok
  by_cases hmal : r.payload.access_token = "" ∨ r.payload.expires_in = 0
  · constructor
    · simp only [ensure_token, if_neg hguard, if_neg hcid, if_neg hcsec,
        if_neg hnok, if_pos hmal]
      simp [hmal]
    · intro ha hb
      rcases hmal with hmal | hmal
      · exact absurd hmal ha
      · exact absurd hmal hb
  · constructor
    · simp only [ensure_token, if_neg hguard, if_neg hcid, if_neg hcsec,
        if_neg hnok, if_neg hmal]
      simp [hmal]
    · intro _ _
      simp only [ensure_token, if_neg hguard, if_neg hcid, if_neg hcsec,
        if_neg hnok, if_neg hmal]

/-- Witness for the amended C6: a complete payload is stored with expiry
`now + expires_in`. -/
theorem claim_C6_witness :
    ensure_token ⟨"", 0⟩ "id" "sec" 1000 false true (some ⟨200, ⟨"tok", 5⟩⟩) =
      (TokRes.okNew, ⟨"tok", 1005⟩, true) :=
  (claim_C6 ⟨"", 0⟩ "id" "sec" 1000 false true ⟨200, ⟨"tok", 5⟩⟩
      (by decide) (by decide) (by decide) (by decide)).2 (by decide) (by decide)

/-! ### Claim about the poll interval -/

/-- Claim C8: the interval computation clamps the minutes input to [0, 9999]
and the seconds input to [0, 59] independently, treats empty or non-numeric
input as 0, and returns max(1, minutes * 60 + seconds); the value armed for
the recurring timer is therefore always at least one second (1000 ms). -/
theorem claim_C8 :
    (∀ mv sv : Int, current_interval_sec (some mv) (some sv) =
      max 1 (max 0 (min 9999 mv) * 60 + max 0 (min 59 sv))) ∧
    (∀ s : Option Int, current_interval_sec none s = current_interval_sec (some 0) s) ∧
    (∀ m : Option Int, current_interval_sec m none = current_interval_sec m (some 0)) ∧
    (∀ m s : Option Int, 1 ≤ current_interval_sec m s) ∧
    (∀ m s : Option Int, 1000 ≤ start_poll_interval_ms m s) := by
  refine ⟨fun mv sv => rfl, fun s => rfl, fun m => rfl,
    fun m s => le_max_left 1 _, ?_⟩
  intro m s
  have h : (1 : Int) ≤ current_interval_sec m s := le_max_left 1 _
  calc (1000 : Int) = 1 * 1000 := by norm_num
    _ ≤ current_interval_sec m s * 1000 := by
        exact mul_le_mul_of_nonneg_right h (by norm_num)
    _ = start_poll_interval_ms m s := rfl

/-! ### Config-persistence lemmas and claim -/

theorem dictGet_dictSet_self (d : CfgDict) (k : String) (v : CVal) (dflt : CVal) :
    dictGet (dictSet d k v) k dflt = v := by
  induction d with
  | nil => simp [dictSet, dictGet]
  | cons p rest ih =>
    by_cases hpk : p.1 = k <;> simp [dictSet, dictGet, hpk, ih]

theorem dictGet_dictSet_ne (d : CfgDict) (k : String) (v : CVal) (x : String)
    (dflt : CVal) (h : x ≠ k) :
    dictGet (dictSet d k v) x dflt = dictGet d x dflt := by
  induction d with
  | nil => simp [dictSet, dictGet, Ne.symm h]
  | cons p rest ih =>
    by_cases hpk : p.1 = k
    · have hpx : ¬p.1 = x := fun hc => h ((hc.symm.trans hpk))
      simp [dictSet, dictGet, hpk, hpx, Ne.symm h]
    · simp [dictSet, dictGet, hpk, ih]

theorem dictSet_dictSet (d : CfgDict) (k : String) (v w : CVal) :
    dictSet (dictSet d k v) k w = dictSet d k w := by
  induction d with
  | nil => simp [dictSet]
  | cons p rest ih =>
    by_cases hpk : p.1 = k <;> simp [dictSet, hpk, ih]

/-- Claim C10: whenever `save_client_secret` is falsy or absent, the
persisted config always carries an empty `client_secret`, so two in-memory
configs differing only in `client_secret` produce identical written dicts
(hence identical files under `json.dumps`); and the caller's dict is left
unmodified, since only the `dict(cfg)` copy is mutated. -/
theorem claim_C10 (cfg : CfgDict) (v : CVal)
    (h : pytruthy (dictGet cfg "save_client_secret" (CVal.b false)) = false) :
    dictGet (save_config cfg).1 "client_secret" (CVal.s "") = CVal.s "" ∧
    (save_config (dictSet cfg "client_secret" v)).1 = (save_config cfg).1 ∧
    (save_config cfg).2 = cfg := by
  have hflag : pytruthy
      (dictGet (dictSet cfg "client_secret" v) "save_client_secret" (CVal.b false)) =
        false := by
    rw [dictGet_dictSet_ne cfg "client_secret" v "save_client_secret" _ (by decide)]
    exact h
  refine ⟨?_, ?_, rfl⟩
  · simp only [save_config, if_neg (by simp [h] :
      ¬pytruthy (dictGet cfg "save_client_secret" (CVal.b false)) = true)]
    exact dictGet_dictSet_self cfg "client_secret" (CVal.s "") (CVal.s "")
  · simp only [save_config,
      if_neg (by simp [h] :
        ¬pytruthy (dictGet cfg "save_client_secret" (CVal.b false)) = true),
      if_neg (by simp [hflag] :
        ¬pytruthy (dictGet (dictSet cfg "client_secret" v) "save_client_secret"
          (CVal.b false)) = true)]
    exact dictSet_dictSet cfg "client_secret" v (CVal.s "")

/-- Witness for C10: a config with the save flag absent and a secret set. -/
theorem claim_C10_witness :
    dictGet (save_config [("client_id", CVal.s "x"), ("client_secret", CVal.s "sec")]).1
        "client_secret" (CVal.s "") = CVal.s "" ∧
    (save_config (dictSet [("client_id", CVal.s "x"), ("client_secret", CVal.s "sec")]
        "client_secret" (CVal.s "other"))).1 =
      (save_config [("client_id", CVal.s "x"), ("client_secret", CVal.s "sec")]).1 ∧
    (save_config [("client_id", CVal.s "x"), ("client_secret", CVal.s "sec")]).2 =
      [("client_id", CVal.s "x"), ("client_secret", CVal.s "sec")] :=
  claim_C10 [("client_id", CVal.s "x"), ("client_secret", CVal.s "sec")]
    (CVal.s "other") (by decide)

end TW
